import Mathlib

/-!
Verification of the trip-planning backend (`src/backend/main.py`).

The backend is a FastAPI service: a budget classifier, four prompt builders,
four generation functions wrapping calls to an external text-generation
backend, and a `plan_trip` orchestrator.  The shallow embedding below models
dates as proleptic-Gregorian civil dates (Python `datetime.date` subtraction
is exact day difference), the external backend as a function from call
arguments to a result (generated content, an empty/blocked response, or a
raised exception), and the effectful generation calls by also returning the
list of backend calls issued.  The process-wide configuration flag is
threaded through `plan_trip` as explicit state.
-/

/-- A single apostrophe character, used inside prompt text. -/
def apos : String := String.singleton (Char.ofNat 39)

/-- Civil calendar date, mirroring Python `datetime.date`. -/
structure Date where
  year : Int
  month : Nat
  day : Nat
deriving DecidableEq

/-- Days since 1970-01-01 in the proleptic Gregorian calendar
(Howard Hinnant's `days_from_civil`); Python `date` subtraction returns
exactly the difference of these ordinals. -/
def Date.toOrdinal (dt : Date) : Int :=
  let y : Int := if dt.month ≤ 2 then dt.year - 1 else dt.year
  let era : Int := (if 0 ≤ y then y else y - 399) / 400
  let yoe : Int := y - era * 400
  let mp : Int := (Int.ofNat dt.month + 9) % 12
  let doy : Int := (153 * mp + 2) / 5 + (Int.ofNat dt.day - 1)
  let doe : Int := yoe * 365 + yoe / 4 - yoe / 100 + doy
  era * 146097 + doe - 719468

/-- Left-pad a string with zeros to the given width. -/
def zeroPad (w : Nat) (s : String) : String :=
  if s.length < w then String.mk (List.replicate (w - s.length) '0') ++ s
  else s

/-- Python `date.strftime(%Y-%m-%d)`: zero-padded year, month and day. -/
def Date.strfYmd (dt : Date) : String :=
  zeroPad 4 (toString dt.year) ++ "-" ++ zeroPad 2 (toString dt.month) ++ "-" ++
    zeroPad 2 (toString dt.day)

/-- `TripRequest` pydantic model of `main.py`. -/
structure TripRequest where
  source : String
  destination : String
  start_date : Date
  end_date : Date
  budget_level : Int
deriving DecidableEq

/-- The JSON record returned by `plan_trip` on success. -/
structure TripPlanResponse where
  flight_suggestions : String
  itinerary : String
  recommendations : String
  weather_forecast : String
deriving DecidableEq

/-- `get_budget_description` of `main.py`. -/
def get_budget_description (budget_level : Int) : String :=
  if budget_level = 1 then "Budget-Friendly"
  else if budget_level = 2 then "Mid-Range"
  else if budget_level = 3 then "Luxury"
  else "Any Budget"

/-- Arguments of one `generate_content_async` call: model identifier, prompt,
temperature in tenths (0.6 is stored as 6), and `max_output_tokens`. -/
structure BackendCall where
  model_name : String
  prompt : String
  temperature_tenths : Nat
  max_output_tokens : Nat
deriving DecidableEq

/-- Outcome of one backend call: a response carrying its content parts, its
text and its prompt feedback metadata, or a raised exception message. -/
inductive BackendResult where
  | response (parts : List String) (text : String) (prompt_feedback : String)
  | exn (msg : String)
deriving DecidableEq

/-- The external generation backend, as a deterministic map from call
arguments to outcome. -/
def Backend : Type := BackendCall → BackendResult

/-- Process-wide state: the `api_configured` flag set at startup. -/
structure ServerState where
  api_configured : Bool
deriving DecidableEq

/-- Outcome of the HTTP handler: a 200 body or an `HTTPException`. -/
inductive PlanResult where
  | ok (resp : TripPlanResponse)
  | httpError (status_code : Nat) (detail : String)
deriving DecidableEq

/-- The f-string prompt built inside `generate_flight_suggestions`. -/
def flight_prompt (source destination : String) (start_date end_date : Date)
    (budget_level_desc : String) : String :=
  "\n        As a travel planning AI, suggest potential flight options for a trip from " ++
  source ++ " to " ++ destination ++
  ".\n        The desired departure date is " ++ start_date.strfYmd ++
  " and the return date is " ++ end_date.strfYmd ++
  ".\n        Please provide suggestions that align with a **" ++
  budget_level_desc ++
  " budget**.\n\n        Suggest a few possible airlines, potential layover cities (if applicable), and a general idea of what one might expect regarding flight duration or typical costs for this route and budget.\n        Emphasize that these are *suggestions based on general knowledge* and that users should perform a real-time flight search for accurate prices and availability.\n\n        Present the response clearly using Markdown.\n        "

/-- The f-string prompt built inside `generate_travel_itinerary`; `duration`
is `(end_date - start_date).days + 1`. -/
def itinerary_prompt (destination : String) (start_date end_date : Date)
    (budget_level_desc : String) : String :=
  "Create a detailed travel itinerary for a trip to " ++ destination ++
  ".\n        The trip starts on " ++ start_date.strfYmd ++ " and ends on " ++
  end_date.strfYmd ++ ", " ++ "lasting for " ++
  toString (end_date.toOrdinal - start_date.toOrdinal + 1) ++ " days" ++
  ".\n        Please plan the trip with a **" ++ budget_level_desc ++
  " budget** in mind.\n\n        Provide a day-by-day plan including:\n        - Suggested activities for morning, afternoon, and evening (suitable for a " ++
  budget_level_desc ++
  " budget).\n        - Recommendations for places to visit (landmarks, museums, parks, etc.) - mention cost implications if relevant to the budget.\n        - Optional: Suggestions for local food or restaurants to try that fit a " ++
  budget_level_desc ++
  " budget.\n        - Optional: Basic tips for getting around (e.g., public transport, walking) that are budget-conscious.\n\n        Format the output clearly, perhaps using Markdown with headings for each day.\n        Be creative and provide practical suggestions for a memorable trip.\n        "

/-- The f-string prompt built inside `generate_recommendations`. -/
def recommendations_prompt (location : String) (budget_level_desc : String) : String :=
  "\n         You are an expert Restaurant & Hotel Planner.\n         Your job is to provide Restaurant & Hotel recommendations for " ++
  location ++
  ".\n         Please provide recommendations specifically for a **" ++
  budget_level_desc ++
  " budget**.\n\n         - For Restaurants: Provide Top 5 restaurants that fit a " ++
  budget_level_desc ++
  " budget, with address and a general idea of average cost or cuisine type. Include a rating if available or inferable.\n         - For Hotels: Provide Top 5 hotels that fit a " ++
  budget_level_desc ++
  " budget, with address and a general idea of average cost per night or star rating. Include a rating if available or inferable.\n\n         Return the response using Markdown for clear formatting.\n         "

/-- The f-string prompt built inside `get_weather_forecast`; it is a function
of the location only. -/
def weather_prompt (location : String) : String :=
  "\n         You are an expert weather forecaster and travel advisor. Your job is to provide a detailed weather forecast and suggest appropriate clothing to pack for a trip to " ++
  location ++
  ".\n         Provide the forecast for the next 7 days, starting from today" ++
  apos ++
  "s date.\n         Include details such as:\n         - Daily temperature range (High/Low)\n         - Precipitation (chance of rain/snow)\n         - Humidity\n         - Wind conditions\n         - Air Quality (if available or inferable)\n         - Cloud Cover\n\n         Based on this 7-day forecast, provide a clear and concise suggestion for the type of clothing and gear someone should pack for their trip to " ++
  location ++
  " during this period. Consider layering if temperatures vary.\n\n         Present the response clearly using Markdown, with a section for the daily forecast and a separate section for clothing suggestions.\n         "

/-- Call arguments issued by `generate_flight_suggestions`
(temperature 0.6, `max_output_tokens` 700). -/
def flight_call (source destination : String) (start_date end_date : Date)
    (budget_level_desc : String) (model_name : String) : BackendCall :=
  ⟨model_name, flight_prompt source destination start_date end_date budget_level_desc, 6, 700⟩

/-- Call arguments issued by `generate_travel_itinerary`
(temperature 0.7, `max_output_tokens` 2048). -/
def itinerary_call (destination : String) (start_date end_date : Date)
    (budget_level_desc : String) (model_name : String) : BackendCall :=
  ⟨model_name, itinerary_prompt destination start_date end_date budget_level_desc, 7, 2048⟩

/-- Call arguments issued by `generate_recommendations`
(temperature 0.7, `max_output_tokens` 2048). -/
def recommendations_call (location : String) (budget_level_desc : String)
    (model_name : String) : BackendCall :=
  ⟨model_name, recommendations_prompt location budget_level_desc, 7, 2048⟩

/-- Call arguments issued by `get_weather_forecast`
(temperature 0.4, `max_output_tokens` 1500). -/
def weather_call (location : String) (model_name : String) : BackendCall :=
  ⟨model_name, weather_prompt location, 4, 1500⟩

/-- `generate_flight_suggestions` of `main.py`.  Returns the produced string
together with the list of backend calls issued. -/
def generate_flight_suggestions (api_configured : Bool) (backend : Backend)
    (source destination : String) (start_date end_date : Date)
    (budget_level_desc : String) (model_name : String := "gemini-1.5-flash") :
    String × List BackendCall :=
  if api_configured = false then
    ("API not configured. Cannot generate flight suggestions.", [])
  else
    let call := flight_call source destination start_date end_date budget_level_desc model_name
    match backend call with
    | .response parts text prompt_feedback =>
      if parts ≠ [] then (text, [call])
      else ("Could not generate flight suggestions. The response was empty or blocked. (Feedback: " ++
        prompt_feedback ++ ")", [call])
    | .exn e =>
      ("An error occurred during flight suggestion generation: " ++ e, [call])

/-- `generate_travel_itinerary` of `main.py`. -/
def generate_travel_itinerary (api_configured : Bool) (backend : Backend)
    (destination : String) (start_date end_date : Date)
    (budget_level_desc : String) (model_name : String := "gemini-1.5-flash") :
    String × List BackendCall :=
  if api_configured = false then
    ("API not configured. Cannot generate itinerary.", [])
  else
    let call := itinerary_call destination start_date end_date budget_level_desc model_name
    match backend call with
    | .response parts text prompt_feedback =>
      if parts ≠ [] then (text, [call])
      else ("Could not generate itinerary. The response was empty or blocked. (Feedback: " ++
        prompt_feedback ++ ")", [call])
    | .exn e =>
      ("An error occurred during itinerary generation: " ++ e, [call])

/-- `generate_recommendations` of `main.py`. -/
def generate_recommendations (api_configured : Bool) (backend : Backend)
    (location : String) (budget_level_desc : String)
    (model_name : String := "gemini-1.5-flash") :
    String × List BackendCall :=
  if api_configured = false then
    ("API not configured. Cannot generate recommendations.", [])
  else
    let call := recommendations_call location budget_level_desc model_name
    match backend call with
    | .response parts text prompt_feedback =>
      if parts ≠ [] then (text, [call])
      else ("Could not generate recommendations. The response was empty or blocked. (Feedback: " ++
        prompt_feedback ++ ")", [call])
    | .exn e =>
      ("An error occurred during recommendation generation: " ++ e, [call])

/-- `get_weather_forecast` of `main.py`. -/
def get_weather_forecast (api_configured : Bool) (backend : Backend)
    (location : String) (model_name : String := "gemini-1.5-flash") :
    String × List BackendCall :=
  if api_configured = false then
    ("API not configured. Cannot get weather forecast or clothing suggestions.", [])
  else
    let call := weather_call location model_name
    match backend call with
    | .response parts text prompt_feedback =>
      if parts ≠ [] then (text, [call])
      else ("Could not get weather forecast and clothing suggestions. The response was empty or blocked. (Feedback: " ++
        prompt_feedback ++ ")", [call])
    | .exn e =>
      ("An error occurred during weather forecasting and clothing suggestions: " ++ e, [call])

/-- The `POST /plan_trip/` handler of `main.py`: checks the configuration
flag, resolves the budget descriptor once, runs the four generation calls
sequentially, and assembles the response record.  It returns the handler
outcome, the backend calls issued (in order), and the process state, which
the handler never mutates. -/
def plan_trip (st : ServerState) (backend : Backend) (request : TripRequest) :
    PlanResult × List BackendCall × ServerState :=
  if st.api_configured = false then
    (.httpError 503 "Google Generative AI API is not configured.", [], st)
  else
    let budget_level_desc := get_budget_description request.budget_level
    let fs := generate_flight_suggestions st.api_configured backend
      request.source request.destination request.start_date request.end_date budget_level_desc
    let it := generate_travel_itinerary st.api_configured backend
      request.destination request.start_date request.end_date budget_level_desc
    let rc := generate_recommendations st.api_configured backend
      request.destination budget_level_desc
    let wf := get_weather_forecast st.api_configured backend request.destination
    (.ok ⟨fs.1, it.1, rc.1, wf.1⟩, fs.2 ++ it.2 ++ rc.2 ++ wf.2, st)

/-- Does `pat` occur at the head of `s`? -/
def headMatch : List Char → List Char → Bool
  | [], _ => true
  | _ :: _, [] => false
  | a :: ps, b :: cs => a = b && headMatch ps cs

/-- Does `pat` occur as a contiguous substring of `s`? -/
def occursIn (pat : List Char) : List Char → Bool
  | [] => pat.isEmpty
  | c :: rest => headMatch pat (c :: rest) || occursIn pat rest

/-- `pat` occurs as a contiguous substring of `s`. -/
def StrContains (s pat : String) : Prop := occursIn pat.data s.data = true

instance (s pat : String) : Decidable (StrContains s pat) := by
  unfold StrContains; infer_instance

theorem headMatch_append (p b : List Char) : headMatch p (p ++ b) = true := by
  induction p with
  | nil => rfl
  | cons a ps ih => simp [headMatch, ih]

theorem occursIn_factor (a p b : List Char) : occursIn p (a ++ p ++ b) = true := by
  induction a with
  | nil =>
    simp only [List.nil_append]
    cases p with
    | nil => cases b <;> simp [occursIn, headMatch]
    | cons x xs =>
      simp only [List.cons_append, occursIn, headMatch, Bool.or_eq_true,
        Bool.and_eq_true, decide_eq_true_eq]
      exact Or.inl ⟨trivial, headMatch_append xs b⟩
  | cons c cs ih =>
    simp only [List.cons_append, occursIn, Bool.or_eq_true]
    exact Or.inr ih

/-- A string factored as `pre ++ pat ++ post` contains `pat`. -/
theorem StrContains_of_factor (pre pat post : String) :
    StrContains (pre ++ (pat ++ post)) pat := by
  have h := occursIn_factor pre.data pat.data post.data
  simpa [StrContains, String.data_append, List.append_assoc] using h

theorem occursIn_nil (t : List Char) : occursIn [] t = true := by
  cases t <;> simp [occursIn, headMatch]

theorem headMatch_ext (p : List Char) :
    ∀ s t : List Char, headMatch p s = true → headMatch p (s ++ t) = true := by
  induction p with
  | nil => intro s t _; rfl
  | cons a ps ih =>
    intro s t h
    cases s with
    | nil => simp [headMatch] at h
    | cons b bs =>
      simp only [headMatch, Bool.and_eq_true, decide_eq_true_eq] at h
      simp only [List.cons_append, headMatch, Bool.and_eq_true, decide_eq_true_eq]
      exact ⟨h.1, ih bs t h.2⟩

theorem occursIn_ext (p : List Char) :
    ∀ s t : List Char, occursIn p s = true → occursIn p (s ++ t) = true := by
  intro s
  induction s with
  | nil =>
    intro t h
    simp only [occursIn, List.isEmpty_iff] at h
    subst h
    simpa using occursIn_nil t
  | cons c cs ih =>
    intro t h
    simp only [occursIn, Bool.or_eq_true] at h
    simp only [List.cons_append, occursIn, Bool.or_eq_true]
    cases h with
    | inl h => exact Or.inl (headMatch_ext p (c :: cs) t h)
    | inr h => exact Or.inr (ih t h)

theorem occursIn_tail (a p : List Char) : occursIn p (a ++ p) = true := by
  simpa using occursIn_factor a p []

/-- Containment survives appending on the right. -/
theorem StrContains_extend (s t pat : String) (h : StrContains s pat) :
    StrContains (s ++ t) pat :=
  occursIn_ext pat.data s.data t.data h

/-- A string ending in `pat` contains `pat`. -/
theorem StrContains_tail (pre pat : String) : StrContains (pre ++ pat) pat :=
  occursIn_tail pre.data pat.data

/-- A string whose last three chunks are `l1`, `l2`, `l3` contains the
pattern `l1 ++ l2 ++ l3`. -/
theorem StrContains_tail3 (b l1 l2 l3 : String) :
    StrContains (b ++ l1 ++ l2 ++ l3) (l1 ++ l2 ++ l3) := by
  have h := occursIn_tail b.data (l1.data ++ l2.data ++ l3.data)
  have e : b.data ++ (l1.data ++ l2.data ++ l3.data) =
      b.data ++ l1.data ++ l2.data ++ l3.data := by
    simp [List.append_assoc]
  rw [e] at h
  exact h

/-- The flight prompt embeds the budget descriptor. -/
theorem flight_prompt_contains_desc (source destination : String)
    (start_date end_date : Date) (desc : String) :
    StrContains (flight_prompt source destination start_date end_date desc) desc :=
  StrContains_extend _ _ _ (StrContains_tail _ _)

/-- The itinerary prompt embeds the budget descriptor. -/
theorem itinerary_prompt_contains_desc (destination : String)
    (start_date end_date : Date) (desc : String) :
    StrContains (itinerary_prompt destination start_date end_date desc) desc :=
  StrContains_extend _ _ _ (StrContains_tail _ _)

/-- The recommendations prompt embeds the budget descriptor. -/
theorem recommendations_prompt_contains_desc (location desc : String) :
    StrContains (recommendations_prompt location desc) desc :=
  StrContains_extend _ _ _ (StrContains_tail _ _)

/-- The itinerary prompt states the computed trip duration. -/
theorem itinerary_prompt_contains_duration (destination : String)
    (start_date end_date : Date) (desc : String) :
    StrContains (itinerary_prompt destination start_date end_date desc)
      ("lasting for " ++ toString (end_date.toOrdinal - start_date.toOrdinal + 1) ++ " days") := by
  unfold itinerary_prompt
  apply StrContains_extend
  apply StrContains_extend
  apply StrContains_extend
  apply StrContains_extend
  apply StrContains_extend
  apply StrContains_extend
  apply StrContains_extend
  exact StrContains_tail3 _ _ _ _

/-- With the flag set, the flight generation issues exactly its one call,
whatever the backend does. -/
theorem generate_flight_suggestions_trace (b : Backend) (source destination : String)
    (sd ed : Date) (desc mn : String) :
    (generate_flight_suggestions true b source destination sd ed desc mn).2 =
      [flight_call source destination sd ed desc mn] := by
  unfold generate_flight_suggestions
  cases hb : b (flight_call source destination sd ed desc mn) with
  | response parts text fb =>
    by_cases hp : parts = [] <;> simp [hb, hp]
  | exn e => simp [hb]

/-- With the flag set, the itinerary generation issues exactly its one call. -/
theorem generate_travel_itinerary_trace (b : Backend) (destination : String)
    (sd ed : Date) (desc mn : String) :
    (generate_travel_itinerary true b destination sd ed desc mn).2 =
      [itinerary_call destination sd ed desc mn] := by
  unfold generate_travel_itinerary
  cases hb : b (itinerary_call destination sd ed desc mn) with
  | response parts text fb =>
    by_cases hp : parts = [] <;> simp [hb, hp]
  | exn e => simp [hb]

/-- With the flag set, the recommendations generation issues exactly its one
call. -/
theorem generate_recommendations_trace (b : Backend) (location desc mn : String) :
    (generate_recommendations true b location desc mn).2 =
      [recommendations_call location desc mn] := by
  unfold generate_recommendations
  cases hb : b (recommendations_call location desc mn) with
  | response parts text fb =>
    by_cases hp : parts = [] <;> simp [hb, hp]
  | exn e => simp [hb]

/-- With the flag set, the weather generation issues exactly its one call. -/
theorem get_weather_forecast_trace (b : Backend) (location mn : String) :
    (get_weather_forecast true b location mn).2 = [weather_call location mn] := by
  unfold get_weather_forecast
  cases hb : b (weather_call location mn) with
  | response parts text fb =>
    by_cases hp : parts = [] <;> simp [hb, hp]
  | exn e => simp [hb]

/-- The flight generation result only depends on the backend's answer to the
flight call. -/
theorem generate_flight_suggestions_ext (b b2 : Backend) (source destination : String)
    (sd ed : Date) (desc mn : String)
    (h : b2 (flight_call source destination sd ed desc mn) =
         b (flight_call source destination sd ed desc mn)) :
    generate_flight_suggestions true b2 source destination sd ed desc mn =
      generate_flight_suggestions true b source destination sd ed desc mn := by
  simp [generate_flight_suggestions, h]

/-- The recommendations result only depends on the backend's answer to the
recommendations call. -/
theorem generate_recommendations_ext (b b2 : Backend) (location desc mn : String)
    (h : b2 (recommendations_call location desc mn) =
         b (recommendations_call location desc mn)) :
    generate_recommendations true b2 location desc mn =
      generate_recommendations true b location desc mn := by
  simp [generate_recommendations, h]

/-- The weather result only depends on the backend's answer to the weather
call. -/
theorem get_weather_forecast_ext (b b2 : Backend) (location mn : String)
    (h : b2 (weather_call location mn) = b (weather_call location mn)) :
    get_weather_forecast true b2 location mn = get_weather_forecast true b location mn := by
  simp [get_weather_forecast, h]

/-- A backend exception at the itinerary call is caught and converted to the
diagnostic string. -/
theorem generate_travel_itinerary_exn (b : Backend) (destination : String)
    (sd ed : Date) (desc mn m : String)
    (h : b (itinerary_call destination sd ed desc mn) = .exn m) :
    generate_travel_itinerary true b destination sd ed desc mn =
      ("An error occurred during itinerary generation: " ++ m,
       [itinerary_call destination sd ed desc mn]) := by
  simp [generate_travel_itinerary, h]

/-- The itinerary result only depends on the backend's answer to the
itinerary call. -/
theorem generate_travel_itinerary_ext (b b2 : Backend) (destination : String)
    (sd ed : Date) (desc mn : String)
    (h : b2 (itinerary_call destination sd ed desc mn) =
         b (itinerary_call destination sd ed desc mn)) :
    generate_travel_itinerary true b2 destination sd ed desc mn =
      generate_travel_itinerary true b destination sd ed desc mn := by
  simp [generate_travel_itinerary, h]

/-- A backend exception at the flight call is caught and converted to the
diagnostic string. -/
theorem generate_flight_suggestions_exn (b : Backend) (source destination : String)
    (sd ed : Date) (desc mn m : String)
    (h : b (flight_call source destination sd ed desc mn) = .exn m) :
    generate_flight_suggestions true b source destination sd ed desc mn =
      ("An error occurred during flight suggestion generation: " ++ m,
       [flight_call source destination sd ed desc mn]) := by
  simp [generate_flight_suggestions, h]

/-- A backend exception at the recommendations call is caught and converted
to the diagnostic string. -/
theorem generate_recommendations_exn (b : Backend) (location desc mn m : String)
    (h : b (recommendations_call location desc mn) = .exn m) :
    generate_recommendations true b location desc mn =
      ("An error occurred during recommendation generation: " ++ m,
       [recommendations_call location desc mn]) := by
  simp [generate_recommendations, h]

/-- A backend exception at the weather call is caught and converted to the
diagnostic string. -/
theorem get_weather_forecast_exn (b : Backend) (location mn m : String)
    (h : b (weather_call location mn) = .exn m) :
    get_weather_forecast true b location mn =
      ("An error occurred during weather forecasting and clothing suggestions: " ++ m,
       [weather_call location mn]) := by
  simp [get_weather_forecast, h]

/-- With the flag set, every run of the pipeline issues exactly the four
calls, in order, whatever the backend answers. -/
theorem plan_trip_trace_parts (b : Backend) (r : TripRequest) :
    (generate_flight_suggestions true b r.source r.destination r.start_date
      r.end_date (get_budget_description r.budget_level)).2 ++
    (generate_travel_itinerary true b r.destination r.start_date r.end_date
      (get_budget_description r.budget_level)).2 ++
    (generate_recommendations true b r.destination
      (get_budget_description r.budget_level)).2 ++
    (get_weather_forecast true b r.destination).2 =
      [flight_call r.source r.destination r.start_date r.end_date
        (get_budget_description r.budget_level) "gemini-1.5-flash",
       itinerary_call r.destination r.start_date r.end_date
        (get_budget_description r.budget_level) "gemini-1.5-flash",
       recommendations_call r.destination
        (get_budget_description r.budget_level) "gemini-1.5-flash",
       weather_call r.destination "gemini-1.5-flash"] := by
  rw [generate_flight_suggestions_trace, generate_travel_itinerary_trace,
    generate_recommendations_trace, get_weather_forecast_trace]
  rfl

/-- An empty-parts response at the flight call yields the flight diagnostic
embedding the feedback metadata. -/
theorem generate_flight_suggestions_empty (b : Backend) (source destination : String)
    (sd ed : Date) (desc mn text fb : String)
    (h : b (flight_call source destination sd ed desc mn) = .response [] text fb) :
    generate_flight_suggestions true b source destination sd ed desc mn =
      ("Could not generate flight suggestions. The response was empty or blocked. (Feedback: " ++
        fb ++ ")", [flight_call source destination sd ed desc mn]) := by
  simp [generate_flight_suggestions, h]

/-- An empty-parts response at the itinerary call yields the itinerary
diagnostic embedding the feedback metadata. -/
theorem generate_travel_itinerary_empty (b : Backend) (destination : String)
    (sd ed : Date) (desc mn text fb : String)
    (h : b (itinerary_call destination sd ed desc mn) = .response [] text fb) :
    generate_travel_itinerary true b destination sd ed desc mn =
      ("Could not generate itinerary. The response was empty or blocked. (Feedback: " ++
        fb ++ ")", [itinerary_call destination sd ed desc mn]) := by
  simp [generate_travel_itinerary, h]

/-- An empty-parts response at the recommendations call yields the
recommendations diagnostic embedding the feedback metadata. -/
theorem generate_recommendations_empty (b : Backend) (location desc mn text fb : String)
    (h : b (recommendations_call location desc mn) = .response [] text fb) :
    generate_recommendations true b location desc mn =
      ("Could not generate recommendations. The response was empty or blocked. (Feedback: " ++
        fb ++ ")", [recommendations_call location desc mn]) := by
  simp [generate_recommendations, h]

/-- An empty-parts response at the weather call yields the weather diagnostic
embedding the feedback metadata. -/
theorem get_weather_forecast_empty (b : Backend) (location mn text fb : String)
    (h : b (weather_call location mn) = .response [] text fb) :
    get_weather_forecast true b location mn =
      ("Could not get weather forecast and clothing suggestions. The response was empty or blocked. (Feedback: " ++
        fb ++ ")", [weather_call location mn]) := by
  simp [get_weather_forecast, h]

/-- The end-to-end scenario request of the spec. -/
def parisRequest : TripRequest :=
  ⟨"New York", "Paris", ⟨2025, 6, 1⟩, ⟨2025, 6, 8⟩, 2⟩

/-- A deterministic stub backend that always succeeds with fixed content. -/
def okStub : Backend := fun _ => .response ["ok"] "ok" ""

/-- A deterministic stub backend that echoes the destination of the scenario
request as its generated text. -/
def echoParisStub : Backend := fun _ => .response ["Paris"] "Paris" ""

/-- C1: with the configuration flag true, `plan_trip` always returns a 200
record with exactly the four string fields, each produced by its generation
function, for every backend behavior (success, empty content, or raised
fault); no backend exception escapes any of the four generation functions,
which are total string-valued functions. -/
theorem plan_trip_always_four_fields (b : Backend) (r : TripRequest) :
    ∃ (resp : TripPlanResponse) (trace : List BackendCall),
      plan_trip ⟨true⟩ b r = (.ok resp, trace, ⟨true⟩) ∧
      resp.flight_suggestions = (generate_flight_suggestions true b r.source r.destination
        r.start_date r.end_date (get_budget_description r.budget_level)).1 ∧
      resp.itinerary = (generate_travel_itinerary true b r.destination
        r.start_date r.end_date (get_budget_description r.budget_level)).1 ∧
      resp.recommendations = (generate_recommendations true b r.destination
        (get_budget_description r.budget_level)).1 ∧
      resp.weather_forecast = (get_weather_forecast true b r.destination).1 :=
  ⟨_, _, rfl, rfl, rfl, rfl, rfl⟩

/-- C2: with the configuration flag false, `POST /plan_trip/` fails with
status 503 and the empty call trace: no generation-backend call is attempted,
whatever the backend and the request. -/
theorem plan_trip_unconfigured_503 (b : Backend) (r : TripRequest) :
    plan_trip ⟨false⟩ b r =
      (.httpError 503 "Google Generative AI API is not configured.", [], ⟨false⟩) :=
  rfl

/-- C3: `get_budget_description` is total on the integers and maps 1, 2, 3 to
the three fixed strings and every other integer to "Any Budget". -/
theorem get_budget_description_total (l : Int) :
    (l = 1 → get_budget_description l = "Budget-Friendly") ∧
    (l = 2 → get_budget_description l = "Mid-Range") ∧
    (l = 3 → get_budget_description l = "Luxury") ∧
    (l ≠ 1 → l ≠ 2 → l ≠ 3 → get_budget_description l = "Any Budget") := by
  refine ⟨fun h => by subst h; rfl, fun h => by subst h; rfl, fun h => by subst h; rfl,
    fun h1 h2 h3 => ?_⟩
  simp [get_budget_description, h1, h2, h3]

/-- Witness for C3 at the inputs 1, 2, 3, 0, 4 and -5. -/
theorem get_budget_description_total_witness :
    get_budget_description 1 = "Budget-Friendly" ∧
    get_budget_description 2 = "Mid-Range" ∧
    get_budget_description 3 = "Luxury" ∧
    get_budget_description 0 = "Any Budget" ∧
    get_budget_description 4 = "Any Budget" ∧
    get_budget_description (-5) = "Any Budget" :=
  ⟨(get_budget_description_total 1).1 rfl,
   (get_budget_description_total 2).2.1 rfl,
   (get_budget_description_total 3).2.2.1 rfl,
   (get_budget_description_total 0).2.2.2 (by decide) (by decide) (by decide),
   (get_budget_description_total 4).2.2.2 (by decide) (by decide) (by decide),
   (get_budget_description_total (-5)).2.2.2 (by decide) (by decide) (by decide)⟩

set_option maxRecDepth 400000 in
/-- C4 counterexample: for the scenario request (budget level 2, descriptor
"Mid-Range"), the prompt of the weather-forecast generation call issued by
`plan_trip` does not contain the budget descriptor, refuting the claim that
all four prompts embed it. -/
theorem weather_prompt_lacks_budget_descriptor :
    (plan_trip ⟨true⟩ okStub parisRequest).2.1.getLast? =
      some (weather_call "Paris" "gemini-1.5-flash") ∧
    ¬ StrContains (weather_call "Paris" "gemini-1.5-flash").prompt
      (get_budget_description parisRequest.budget_level) :=
  ⟨rfl, by decide⟩

/-- C4 amended: the flight, itinerary and recommendations prompts each embed
the budget descriptor resolved from the request's budget level; the weather
prompt is built from the destination alone and takes no budget descriptor
(see the counterexample for the weather prompt of the scenario request). -/
theorem three_prompts_embed_budget_descriptor (source destination : String)
    (sd ed : Date) (lvl : Int) :
    StrContains (flight_prompt source destination sd ed (get_budget_description lvl))
      (get_budget_description lvl) ∧
    StrContains (itinerary_prompt destination sd ed (get_budget_description lvl))
      (get_budget_description lvl) ∧
    StrContains (recommendations_prompt destination (get_budget_description lvl))
      (get_budget_description lvl) :=
  ⟨flight_prompt_contains_desc source destination sd ed _,
   itinerary_prompt_contains_desc destination sd ed _,
   recommendations_prompt_contains_desc destination _⟩

set_option maxRecDepth 400000 in
/-- C5: for the request (New York, Paris, 2025-06-01, 2025-06-08, budget 2)
against a stub backend echoing the destination, all four response fields
reference "Paris", the computed duration is (end - start).days + 1 = 8, and
the itinerary generation call's prompt states "lasting for 8 days". -/
theorem plan_trip_paris_scenario :
    ∃ (resp : TripPlanResponse) (trace : List BackendCall),
      plan_trip ⟨true⟩ echoParisStub parisRequest = (.ok resp, trace, ⟨true⟩) ∧
      StrContains resp.flight_suggestions "Paris" ∧
      StrContains resp.itinerary "Paris" ∧
      StrContains resp.recommendations "Paris" ∧
      StrContains resp.weather_forecast "Paris" ∧
      parisRequest.end_date.toOrdinal - parisRequest.start_date.toOrdinal + 1 = 8 ∧
      ∃ c : BackendCall, trace.get? 1 = some c ∧
        StrContains c.prompt "lasting for 8 days" := by
  refine ⟨_, _, rfl, ?_, ?_, ?_, ?_, by decide, _, rfl, ?_⟩
  · decide
  · decide
  · decide
  · decide
  · decide

/-- Backend-call descriptors of the four generation calls that `plan_trip`
issues for a request. -/
def flight_call_of (r : TripRequest) : BackendCall :=
  flight_call r.source r.destination r.start_date r.end_date
    (get_budget_description r.budget_level) "gemini-1.5-flash"

/-- The itinerary call `plan_trip` issues for a request. -/
def itinerary_call_of (r : TripRequest) : BackendCall :=
  itinerary_call r.destination r.start_date r.end_date
    (get_budget_description r.budget_level) "gemini-1.5-flash"

/-- The recommendations call `plan_trip` issues for a request. -/
def recommendations_call_of (r : TripRequest) : BackendCall :=
  recommendations_call r.destination (get_budget_description r.budget_level)
    "gemini-1.5-flash"

/-- The weather call `plan_trip` issues for a request. -/
def weather_call_of (r : TripRequest) : BackendCall :=
  weather_call r.destination "gemini-1.5-flash"

/-- C6: if the backend raises a fault during exactly one of the four
generation calls of a request — whichever of the four it is — the other
three response fields are still populated exactly as by a backend that
agrees on those three calls, the faulting field becomes the caught-exception
diagnostic of its own generation function, and all four calls are still
attempted in order (identical trace of length 4: no retry, no abort). -/
theorem plan_trip_fault_isolated (b b2 : Backend) (r : TripRequest) (m : String) :
    (b2 (itinerary_call_of r) = b (itinerary_call_of r) →
     b2 (recommendations_call_of r) = b (recommendations_call_of r) →
     b2 (weather_call_of r) = b (weather_call_of r) →
     b2 (flight_call_of r) = .exn m →
     ∃ (resp resp2 : TripPlanResponse) (trace trace2 : List BackendCall),
       plan_trip ⟨true⟩ b r = (.ok resp, trace, ⟨true⟩) ∧
       plan_trip ⟨true⟩ b2 r = (.ok resp2, trace2, ⟨true⟩) ∧
       resp2.itinerary = resp.itinerary ∧
       resp2.recommendations = resp.recommendations ∧
       resp2.weather_forecast = resp.weather_forecast ∧
       resp2.flight_suggestions =
         "An error occurred during flight suggestion generation: " ++ m ∧
       trace2 = trace ∧ trace.length = 4) ∧
    (b2 (flight_call_of r) = b (flight_call_of r) →
     b2 (recommendations_call_of r) = b (recommendations_call_of r) →
     b2 (weather_call_of r) = b (weather_call_of r) →
     b2 (itinerary_call_of r) = .exn m →
     ∃ (resp resp2 : TripPlanResponse) (trace trace2 : List BackendCall),
       plan_trip ⟨true⟩ b r = (.ok resp, trace, ⟨true⟩) ∧
       plan_trip ⟨true⟩ b2 r = (.ok resp2, trace2, ⟨true⟩) ∧
       resp2.flight_suggestions = resp.flight_suggestions ∧
       resp2.recommendations = resp.recommendations ∧
       resp2.weather_forecast = resp.weather_forecast ∧
       resp2.itinerary = "An error occurred during itinerary generation: " ++ m ∧
       trace2 = trace ∧ trace.length = 4) ∧
    (b2 (flight_call_of r) = b (flight_call_of r) →
     b2 (itinerary_call_of r) = b (itinerary_call_of r) →
     b2 (weather_call_of r) = b (weather_call_of r) →
     b2 (recommendations_call_of r) = .exn m →
     ∃ (resp resp2 : TripPlanResponse) (trace trace2 : List BackendCall),
       plan_trip ⟨true⟩ b r = (.ok resp, trace, ⟨true⟩) ∧
       plan_trip ⟨true⟩ b2 r = (.ok resp2, trace2, ⟨true⟩) ∧
       resp2.flight_suggestions = resp.flight_suggestions ∧
       resp2.itinerary = resp.itinerary ∧
       resp2.weather_forecast = resp.weather_forecast ∧
       resp2.recommendations =
         "An error occurred during recommendation generation: " ++ m ∧
       trace2 = trace ∧ trace.length = 4) ∧
    (b2 (flight_call_of r) = b (flight_call_of r) →
     b2 (itinerary_call_of r) = b (itinerary_call_of r) →
     b2 (recommendations_call_of r) = b (recommendations_call_of r) →
     b2 (weather_call_of r) = .exn m →
     ∃ (resp resp2 : TripPlanResponse) (trace trace2 : List BackendCall),
       plan_trip ⟨true⟩ b r = (.ok resp, trace, ⟨true⟩) ∧
       plan_trip ⟨true⟩ b2 r = (.ok resp2, trace2, ⟨true⟩) ∧
       resp2.flight_suggestions = resp.flight_suggestions ∧
       resp2.itinerary = resp.itinerary ∧
       resp2.recommendations = resp.recommendations ∧
       resp2.weather_forecast =
         "An error occurred during weather forecasting and clothing suggestions: " ++ m ∧
       trace2 = trace ∧ trace.length = 4) := by
  refine ⟨fun h1 h2 h3 h4 => ?_, fun h1 h2 h3 h4 => ?_,
    fun h1 h2 h3 h4 => ?_, fun h1 h2 h3 h4 => ?_⟩
  · refine ⟨_, _, _, _, rfl, rfl, ?_, ?_, ?_, ?_, ?_, ?_⟩
    · exact congrArg Prod.fst (generate_travel_itinerary_ext b b2 _ _ _ _ _ h1)
    · exact congrArg Prod.fst (generate_recommendations_ext b b2 _ _ _ h2)
    · exact congrArg Prod.fst (get_weather_forecast_ext b b2 _ _ h3)
    · exact congrArg Prod.fst (generate_flight_suggestions_exn b2 _ _ _ _ _ _ _ h4)
    · exact (plan_trip_trace_parts b2 r).trans (plan_trip_trace_parts b r).symm
    · exact (congrArg List.length (plan_trip_trace_parts b r)).trans rfl
  · refine ⟨_, _, _, _, rfl, rfl, ?_, ?_, ?_, ?_, ?_, ?_⟩
    · exact congrArg Prod.fst (generate_flight_suggestions_ext b b2 _ _ _ _ _ _ h1)
    · exact congrArg Prod.fst (generate_recommendations_ext b b2 _ _ _ h2)
    · exact congrArg Prod.fst (get_weather_forecast_ext b b2 _ _ h3)
    · exact congrArg Prod.fst (generate_travel_itinerary_exn b2 _ _ _ _ _ _ h4)
    · exact (plan_trip_trace_parts b2 r).trans (plan_trip_trace_parts b r).symm
    · exact (congrArg List.length (plan_trip_trace_parts b r)).trans rfl
  · refine ⟨_, _, _, _, rfl, rfl, ?_, ?_, ?_, ?_, ?_, ?_⟩
    · exact congrArg Prod.fst (generate_flight_suggestions_ext b b2 _ _ _ _ _ _ h1)
    · exact congrArg Prod.fst (generate_travel_itinerary_ext b b2 _ _ _ _ _ h2)
    · exact congrArg Prod.fst (get_weather_forecast_ext b b2 _ _ h3)
    · exact congrArg Prod.fst (generate_recommendations_exn b2 _ _ _ _ h4)
    · exact (plan_trip_trace_parts b2 r).trans (plan_trip_trace_parts b r).symm
    · exact (congrArg List.length (plan_trip_trace_parts b r)).trans rfl
  · refine ⟨_, _, _, _, rfl, rfl, ?_, ?_, ?_, ?_, ?_, ?_⟩
    · exact congrArg Prod.fst (generate_flight_suggestions_ext b b2 _ _ _ _ _ _ h1)
    · exact congrArg Prod.fst (generate_travel_itinerary_ext b b2 _ _ _ _ _ h2)
    · exact congrArg Prod.fst (generate_recommendations_ext b b2 _ _ _ h3)
    · exact congrArg Prod.fst (get_weather_forecast_exn b2 _ _ _ h4)
    · exact (plan_trip_trace_parts b2 r).trans (plan_trip_trace_parts b r).symm
    · exact (congrArg List.length (plan_trip_trace_parts b r)).trans rfl

/-- A stub backend that raises at the scenario request's flight call and
succeeds everywhere else. -/
def faultyFlightStub : Backend := fun c =>
  if c = flight_call "New York" "Paris" ⟨2025, 6, 1⟩ ⟨2025, 6, 8⟩ "Mid-Range"
      "gemini-1.5-flash"
  then .exn "boom" else .response ["ok"] "ok" ""

/-- A stub backend that raises at the scenario request's itinerary call and
succeeds everywhere else. -/
def faultyItineraryStub : Backend := fun c =>
  if c = itinerary_call "Paris" ⟨2025, 6, 1⟩ ⟨2025, 6, 8⟩ "Mid-Range" "gemini-1.5-flash"
  then .exn "boom" else .response ["ok"] "ok" ""

/-- A stub backend that raises at the scenario request's recommendations call
and succeeds everywhere else. -/
def faultyRecommendationsStub : Backend := fun c =>
  if c = recommendations_call "Paris" "Mid-Range" "gemini-1.5-flash"
  then .exn "boom" else .response ["ok"] "ok" ""

/-- A stub backend that raises at the scenario request's weather call and
succeeds everywhere else. -/
def faultyWeatherStub : Backend := fun c =>
  if c = weather_call "Paris" "gemini-1.5-flash"
  then .exn "boom" else .response ["ok"] "ok" ""

set_option maxRecDepth 400000 in
/-- Witness for C6: four fault-injecting stubs, one per generation call of
the scenario request, each against the always-succeeding stub. -/
theorem plan_trip_fault_isolated_witness :
    (faultyFlightStub (flight_call_of parisRequest) = .exn "boom" ∧
     ∃ (resp resp2 : TripPlanResponse) (trace trace2 : List BackendCall),
       plan_trip ⟨true⟩ okStub parisRequest = (.ok resp, trace, ⟨true⟩) ∧
       plan_trip ⟨true⟩ faultyFlightStub parisRequest = (.ok resp2, trace2, ⟨true⟩) ∧
       resp2.itinerary = resp.itinerary ∧
       resp2.recommendations = resp.recommendations ∧
       resp2.weather_forecast = resp.weather_forecast ∧
       resp2.flight_suggestions =
         "An error occurred during flight suggestion generation: " ++ "boom" ∧
       trace2 = trace ∧ trace.length = 4) ∧
    (faultyItineraryStub (itinerary_call_of parisRequest) = .exn "boom" ∧
     ∃ (resp resp2 : TripPlanResponse) (trace trace2 : List BackendCall),
       plan_trip ⟨true⟩ okStub parisRequest = (.ok resp, trace, ⟨true⟩) ∧
       plan_trip ⟨true⟩ faultyItineraryStub parisRequest = (.ok resp2, trace2, ⟨true⟩) ∧
       resp2.flight_suggestions = resp.flight_suggestions ∧
       resp2.recommendations = resp.recommendations ∧
       resp2.weather_forecast = resp.weather_forecast ∧
       resp2.itinerary = "An error occurred during itinerary generation: " ++ "boom" ∧
       trace2 = trace ∧ trace.length = 4) ∧
    (faultyRecommendationsStub (recommendations_call_of parisRequest) = .exn "boom" ∧
     ∃ (resp resp2 : TripPlanResponse) (trace trace2 : List BackendCall),
       plan_trip ⟨true⟩ okStub parisRequest = (.ok resp, trace, ⟨true⟩) ∧
       plan_trip ⟨true⟩ faultyRecommendationsStub parisRequest =
         (.ok resp2, trace2, ⟨true⟩) ∧
       resp2.flight_suggestions = resp.flight_suggestions ∧
       resp2.itinerary = resp.itinerary ∧
       resp2.weather_forecast = resp.weather_forecast ∧
       resp2.recommendations =
         "An error occurred during recommendation generation: " ++ "boom" ∧
       trace2 = trace ∧ trace.length = 4) ∧
    (faultyWeatherStub (weather_call_of parisRequest) = .exn "boom" ∧
     ∃ (resp resp2 : TripPlanResponse) (trace trace2 : List BackendCall),
       plan_trip ⟨true⟩ okStub parisRequest = (.ok resp, trace, ⟨true⟩) ∧
       plan_trip ⟨true⟩ faultyWeatherStub parisRequest = (.ok resp2, trace2, ⟨true⟩) ∧
       resp2.flight_suggestions = resp.flight_suggestions ∧
       resp2.itinerary = resp.itinerary ∧
       resp2.recommendations = resp.recommendations ∧
       resp2.weather_forecast =
         "An error occurred during weather forecasting and clothing suggestions: " ++ "boom" ∧
       trace2 = trace ∧ trace.length = 4) :=
  ⟨⟨by decide,
    (plan_trip_fault_isolated okStub faultyFlightStub parisRequest "boom").1
      (by decide) (by decide) (by decide) (by decide)⟩,
   ⟨by decide,
    (plan_trip_fault_isolated okStub faultyItineraryStub parisRequest "boom").2.1
      (by decide) (by decide) (by decide) (by decide)⟩,
   ⟨by decide,
    (plan_trip_fault_isolated okStub faultyRecommendationsStub parisRequest "boom").2.2.1
      (by decide) (by decide) (by decide) (by decide)⟩,
   ⟨by decide,
    (plan_trip_fault_isolated okStub faultyWeatherStub parisRequest "boom").2.2.2
      (by decide) (by decide) (by decide) (by decide)⟩⟩

/-- C7: whenever the backend answers a generation call with a response whose
parts are empty, that function returns the task-specific empty/blocked
diagnostic string, and that string contains the feedback metadata supplied by
the backend. -/
theorem generation_empty_blocked_diagnostics (b : Backend) (source destination : String)
    (sd ed : Date) (desc mn text fb : String) :
    (b (flight_call source destination sd ed desc mn) = .response [] text fb →
      (generate_flight_suggestions true b source destination sd ed desc mn).1 =
        "Could not generate flight suggestions. The response was empty or blocked. (Feedback: " ++
          fb ++ ")" ∧
      StrContains (generate_flight_suggestions true b source destination sd ed desc mn).1 fb) ∧
    (b (itinerary_call destination sd ed desc mn) = .response [] text fb →
      (generate_travel_itinerary true b destination sd ed desc mn).1 =
        "Could not generate itinerary. The response was empty or blocked. (Feedback: " ++
          fb ++ ")" ∧
      StrContains (generate_travel_itinerary true b destination sd ed desc mn).1 fb) ∧
    (b (recommendations_call destination desc mn) = .response [] text fb →
      (generate_recommendations true b destination desc mn).1 =
        "Could not generate recommendations. The response was empty or blocked. (Feedback: " ++
          fb ++ ")" ∧
      StrContains (generate_recommendations true b destination desc mn).1 fb) ∧
    (b (weather_call destination mn) = .response [] text fb →
      (get_weather_forecast true b destination mn).1 =
        "Could not get weather forecast and clothing suggestions. The response was empty or blocked. (Feedback: " ++
          fb ++ ")" ∧
      StrContains (get_weather_forecast true b destination mn).1 fb) := by
  refine ⟨fun h => ?_, fun h => ?_, fun h => ?_, fun h => ?_⟩
  · have e := generate_flight_suggestions_empty b source destination sd ed desc mn text fb h
    refine ⟨congrArg Prod.fst e, ?_⟩
    rw [congrArg Prod.fst e]
    exact StrContains_extend _ _ _ (StrContains_tail _ _)
  · have e := generate_travel_itinerary_empty b destination sd ed desc mn text fb h
    refine ⟨congrArg Prod.fst e, ?_⟩
    rw [congrArg Prod.fst e]
    exact StrContains_extend _ _ _ (StrContains_tail _ _)
  · have e := generate_recommendations_empty b destination desc mn text fb h
    refine ⟨congrArg Prod.fst e, ?_⟩
    rw [congrArg Prod.fst e]
    exact StrContains_extend _ _ _ (StrContains_tail _ _)
  · have e := get_weather_forecast_empty b destination mn text fb h
    refine ⟨congrArg Prod.fst e, ?_⟩
    rw [congrArg Prod.fst e]
    exact StrContains_extend _ _ _ (StrContains_tail _ _)

/-- A stub backend that always answers with an empty-parts (blocked)
response carrying fixed feedback metadata. -/
def blockedStub : Backend := fun _ => .response [] "" "block_reason: SAFETY"

set_option maxRecDepth 400000 in
/-- Witness for C7: the always-blocked stub on the scenario request's
arguments. -/
theorem generation_empty_blocked_diagnostics_witness :
    blockedStub (weather_call "Paris" "gemini-1.5-flash") =
      .response [] "" "block_reason: SAFETY" ∧
    (get_weather_forecast true blockedStub "Paris" "gemini-1.5-flash").1 =
      "Could not get weather forecast and clothing suggestions. The response was empty or blocked. (Feedback: " ++
        "block_reason: SAFETY" ++ ")" ∧
    StrContains (get_weather_forecast true blockedStub "Paris" "gemini-1.5-flash").1
      "block_reason: SAFETY" ∧
    (generate_flight_suggestions true blockedStub "New York" "Paris" ⟨2025, 6, 1⟩
      ⟨2025, 6, 8⟩ "Mid-Range" "gemini-1.5-flash").1 =
      "Could not generate flight suggestions. The response was empty or blocked. (Feedback: " ++
        "block_reason: SAFETY" ++ ")" :=
  ⟨rfl,
   ((generation_empty_blocked_diagnostics blockedStub "New York" "Paris" ⟨2025, 6, 1⟩
      ⟨2025, 6, 8⟩ "Mid-Range" "gemini-1.5-flash" "" "block_reason: SAFETY").2.2.2 rfl).1,
   ((generation_empty_blocked_diagnostics blockedStub "New York" "Paris" ⟨2025, 6, 1⟩
      ⟨2025, 6, 8⟩ "Mid-Range" "gemini-1.5-flash" "" "block_reason: SAFETY").2.2.2 rfl).2,
   ((generation_empty_blocked_diagnostics blockedStub "New York" "Paris" ⟨2025, 6, 1⟩
      ⟨2025, 6, 8⟩ "Mid-Range" "gemini-1.5-flash" "" "block_reason: SAFETY").1 rfl).1⟩

/-- C8: the core never validates the date order: for any request with
end_date before start_date and the flag true, `plan_trip` still returns a
full four-field 200 response, the computed duration (end - start).days + 1 is
non-positive, and that duration is embedded as-is in the itinerary call's
prompt. -/
theorem plan_trip_accepts_reversed_dates (b : Backend) (src dst : String)
    (sd ed : Date) (lvl : Int) (h : ed.toOrdinal < sd.toOrdinal) :
    ∃ (resp : TripPlanResponse) (trace : List BackendCall),
      plan_trip ⟨true⟩ b ⟨src, dst, sd, ed, lvl⟩ = (.ok resp, trace, ⟨true⟩) ∧
      ed.toOrdinal - sd.toOrdinal + 1 ≤ 0 ∧
      ∃ c : BackendCall,
        trace.get? 1 = some c ∧
        c.prompt = itinerary_prompt dst sd ed (get_budget_description lvl) ∧
        StrContains c.prompt
          ("lasting for " ++ toString (ed.toOrdinal - sd.toOrdinal + 1) ++ " days") := by
  refine ⟨_, _, rfl, by omega,
    itinerary_call dst sd ed (get_budget_description lvl) "gemini-1.5-flash", ?_, rfl, ?_⟩
  · show ((generate_flight_suggestions true b src dst sd ed
        (get_budget_description lvl)).2 ++
      (generate_travel_itinerary true b dst sd ed (get_budget_description lvl)).2 ++
      (generate_recommendations true b dst (get_budget_description lvl)).2 ++
      (get_weather_forecast true b dst).2).get? 1 =
      some (itinerary_call dst sd ed (get_budget_description lvl) "gemini-1.5-flash")
    rw [generate_flight_suggestions_trace, generate_travel_itinerary_trace,
      generate_recommendations_trace, get_weather_forecast_trace]
    rfl
  · exact itinerary_prompt_contains_duration dst sd ed _

/-- Witness for C8: concrete reversed dates 2025-06-08 to 2025-06-01. -/
theorem plan_trip_accepts_reversed_dates_witness :
    (Date.mk 2025 6 1).toOrdinal < (Date.mk 2025 6 8).toOrdinal ∧
    (∃ (resp : TripPlanResponse) (trace : List BackendCall),
      plan_trip ⟨true⟩ okStub ⟨"New York", "Paris", ⟨2025, 6, 8⟩, ⟨2025, 6, 1⟩, 2⟩ =
        (.ok resp, trace, ⟨true⟩) ∧
      (Date.mk 2025 6 1).toOrdinal - (Date.mk 2025 6 8).toOrdinal + 1 ≤ 0 ∧
      ∃ c : BackendCall,
        trace.get? 1 = some c ∧
        c.prompt = itinerary_prompt "Paris" ⟨2025, 6, 8⟩ ⟨2025, 6, 1⟩
          (get_budget_description 2) ∧
        StrContains c.prompt
          ("lasting for " ++
            toString ((Date.mk 2025 6 1).toOrdinal - (Date.mk 2025 6 8).toOrdinal + 1) ++
            " days")) :=
  ⟨by decide,
   plan_trip_accepts_reversed_dates okStub "New York" "Paris" ⟨2025, 6, 8⟩ ⟨2025, 6, 1⟩ 2
     (by decide)⟩

/-- C9: `plan_trip` is deterministic and leaves the process state untouched:
a second run of the same request against the same backend, started from the
state the first run returned, yields the identical outcome (response content,
trace and state). -/
theorem plan_trip_idempotent (st : ServerState) (b : Backend) (r : TripRequest)
    (out : PlanResult × List BackendCall × ServerState)
    (h : plan_trip st b r = out) : plan_trip out.2.2 b r = out := by
  have hst : out.2.2 = st := by
    rw [← h]
    unfold plan_trip
    split <;> rfl
  rw [hst, h]

/-- Witness for C9: two runs of the scenario request against the succeeding
stub. -/
theorem plan_trip_idempotent_witness :
    plan_trip (plan_trip ⟨true⟩ okStub parisRequest).2.2 okStub parisRequest =
      plan_trip ⟨true⟩ okStub parisRequest :=
  plan_trip_idempotent ⟨true⟩ okStub parisRequest _ rfl

/-- C10: the weather_forecast field depends only on the request's
destination: two requests with the same destination (possibly differing in
source, dates or budget level) lead to the same fourth backend call — so the
identical weather prompt — and, against the same backend, an identical
weather_forecast field. -/
theorem weather_depends_only_on_destination (b : Backend) (r1 r2 : TripRequest)
    (h : r1.destination = r2.destination) :
    ∃ (resp1 resp2 : TripPlanResponse) (tr1 tr2 : List BackendCall),
      plan_trip ⟨true⟩ b r1 = (.ok resp1, tr1, ⟨true⟩) ∧
      plan_trip ⟨true⟩ b r2 = (.ok resp2, tr2, ⟨true⟩) ∧
      resp1.weather_forecast = resp2.weather_forecast ∧
      tr1.get? 3 = some (weather_call r1.destination "gemini-1.5-flash") ∧
      tr2.get? 3 = some (weather_call r2.destination "gemini-1.5-flash") ∧
      weather_call r1.destination "gemini-1.5-flash" =
        weather_call r2.destination "gemini-1.5-flash" := by
  refine ⟨_, _, _, _, rfl, rfl, ?_, ?_, ?_, by rw [h]⟩
  · show (get_weather_forecast true b r1.destination).1 =
      (get_weather_forecast true b r2.destination).1
    rw [h]
  · show ((generate_flight_suggestions true b r1.source r1.destination r1.start_date
        r1.end_date (get_budget_description r1.budget_level)).2 ++
      (generate_travel_itinerary true b r1.destination r1.start_date r1.end_date
        (get_budget_description r1.budget_level)).2 ++
      (generate_recommendations true b r1.destination
        (get_budget_description r1.budget_level)).2 ++
      (get_weather_forecast true b r1.destination).2).get? 3 =
      some (weather_call r1.destination "gemini-1.5-flash")
    rw [generate_flight_suggestions_trace, generate_travel_itinerary_trace,
      generate_recommendations_trace, get_weather_forecast_trace]
    rfl
  · show ((generate_flight_suggestions true b r2.source r2.destination r2.start_date
        r2.end_date (get_budget_description r2.budget_level)).2 ++
      (generate_travel_itinerary true b r2.destination r2.start_date r2.end_date
        (get_budget_description r2.budget_level)).2 ++
      (generate_recommendations true b r2.destination
        (get_budget_description r2.budget_level)).2 ++
      (get_weather_forecast true b r2.destination).2).get? 3 =
      some (weather_call r2.destination "gemini-1.5-flash")
    rw [generate_flight_suggestions_trace, generate_travel_itinerary_trace,
      generate_recommendations_trace, get_weather_forecast_trace]
    rfl

/-- Witness for C10: the scenario request against a variant with different
source, dates and budget level but the same destination. -/
theorem weather_depends_only_on_destination_witness :
    (parisRequest.destination =
      (⟨"Tokyo", "Paris", ⟨2026, 1, 10⟩, ⟨2026, 1, 2⟩, 3⟩ : TripRequest).destination) ∧
    (∃ (resp1 resp2 : TripPlanResponse) (tr1 tr2 : List BackendCall),
      plan_trip ⟨true⟩ okStub parisRequest = (.ok resp1, tr1, ⟨true⟩) ∧
      plan_trip ⟨true⟩ okStub ⟨"Tokyo", "Paris", ⟨2026, 1, 10⟩, ⟨2026, 1, 2⟩, 3⟩ =
        (.ok resp2, tr2, ⟨true⟩) ∧
      resp1.weather_forecast = resp2.weather_forecast ∧
      tr1.get? 3 = some (weather_call parisRequest.destination "gemini-1.5-flash") ∧
      tr2.get? 3 = some (weather_call
        (⟨"Tokyo", "Paris", ⟨2026, 1, 10⟩, ⟨2026, 1, 2⟩, 3⟩ : TripRequest).destination
        "gemini-1.5-flash") ∧
      weather_call parisRequest.destination "gemini-1.5-flash" =
        weather_call
          (⟨"Tokyo", "Paris", ⟨2026, 1, 10⟩, ⟨2026, 1, 2⟩, 3⟩ : TripRequest).destination
          "gemini-1.5-flash") :=
  ⟨rfl,
   weather_depends_only_on_destination okStub parisRequest
     ⟨"Tokyo", "Paris", ⟨2026, 1, 10⟩, ⟨2026, 1, 2⟩, 3⟩ rfl⟩
